import Mathlib

/-!
Shallow embedding of the cookify-app frontend state logic
(src/frontend/src/App.tsx and src/frontend/src/api.ts).

The embedding models the saved-recipe reconciler, the pantry
synchronizer, the logout teardown and the remote-store error
normalization. Remote calls are modelled by passing the outcome of the
call (an `Except` value, or the parsed response) as an explicit argument
to the handler; the handler then performs exactly the local-state
transitions that the TypeScript code performs.
-/

namespace Cookify

/-- One ingredient of a recipe (api.ts, `Ingredient`). -/
structure Ingredient where
  name : String
  measure : String
deriving DecidableEq

/-- A catalog-sourced recipe (api.ts, `Recipe`). It has no
`is_ai_generated` field. -/
structure Recipe where
  id : String
  title : String
  image : String
  cuisine : String
  meal_type : String
  tags : List String
  ingredients : List Ingredient
  instructions : List String
  match_count : Nat
  total_searched : Nat
deriving DecidableEq

/-- An AI-generated recipe (api.ts, `AIRecipe`). The `is_ai_generated`
field is declared (present on every value of this shape) and carries a
boolean value. -/
structure AIRecipe where
  id : String
  title : String
  image : String
  cuisine : String
  meal_type : String
  tags : List String
  ingredients : List Ingredient
  instructions : List String
  time_minutes : Option Nat
  servings : Option Nat
  difficulty : Option String
  nutrition_summary : Option String
  source : String
  is_ai_generated : Bool
deriving DecidableEq

/-- The argument type of `handleSaveRecipe` (App.tsx line 281):
`recipe: Recipe | AIRecipe`. -/
inductive RecipeInput where
  | catalog (r : Recipe)
  | ai (r : AIRecipe)
deriving DecidableEq

namespace RecipeInput

def id : RecipeInput → String
  | catalog r => r.id
  | ai r => r.id

def title : RecipeInput → String
  | catalog r => r.title
  | ai r => r.title

def image : RecipeInput → String
  | catalog r => r.image
  | ai r => r.image

def cuisine : RecipeInput → String
  | catalog r => r.cuisine
  | ai r => r.cuisine

def meal_type : RecipeInput → String
  | catalog r => r.meal_type
  | ai r => r.meal_type

def tags : RecipeInput → List String
  | catalog r => r.tags
  | ai r => r.tags

def ingredients : RecipeInput → List Ingredient
  | catalog r => r.ingredients
  | ai r => r.ingredients

def instructions : RecipeInput → List String
  | catalog r => r.instructions
  | ai r => r.instructions

/-- The JavaScript test `\x27is_ai_generated\x27 in recipe` (App.tsx
lines 286 and 296): the field is declared exactly on the `AIRecipe`
shape, so the presence test distinguishes the two union members. -/
def hasAiField : RecipeInput → Bool
  | catalog _ => false
  | ai _ => true

/-- `recipe.is_ai_generated` when the field is present; only read behind
the presence test in the code. -/
def aiFlag : RecipeInput → Bool
  | catalog _ => false
  | ai r => r.is_ai_generated

/-- `\x27time_minutes\x27 in recipe ? recipe.time_minutes : undefined`
(App.tsx line 292): the field is declared only on `AIRecipe` and is
itself optional there. -/
def time_minutes : RecipeInput → Option Nat
  | catalog _ => none
  | ai r => r.time_minutes

def servings : RecipeInput → Option Nat
  | catalog _ => none
  | ai r => r.servings

def difficulty : RecipeInput → Option String
  | catalog _ => none
  | ai r => r.difficulty

def nutrition_summary : RecipeInput → Option String
  | catalog _ => none
  | ai r => r.nutrition_summary

end RecipeInput

/-- The `saveData` object literal built by `handleSaveRecipe`
(App.tsx lines 283-297), the body of the save request. -/
structure SaveData where
  title : String
  image : String
  source : String
  cuisine : String
  meal_type : String
  tags : List String
  ingredients : List Ingredient
  instructions : List String
  time_minutes : Option Nat
  servings : Option Nat
  difficulty : Option String
  nutrition_summary : Option String
  is_ai_generated : Bool
deriving DecidableEq

/-- App.tsx lines 283-297: the construction of `saveData`, field by
field. `source` is derived from the presence test
`\x27is_ai_generated\x27 in recipe`, and `is_ai_generated` is the
field value when present, `false` otherwise. -/
def mkSaveData (recipe : RecipeInput) : SaveData :=
  { title := recipe.title
    image := recipe.image
    source := if recipe.hasAiField then "AI" else "TheMealDB"
    cuisine := recipe.cuisine
    meal_type := recipe.meal_type
    tags := recipe.tags
    ingredients := recipe.ingredients
    instructions := recipe.instructions
    time_minutes := recipe.time_minutes
    servings := recipe.servings
    difficulty := recipe.difficulty
    nutrition_summary := recipe.nutrition_summary
    is_ai_generated := if recipe.hasAiField then recipe.aiFlag else false }

/-- A saved-recipe record (api.ts, `SavedRecipe`). -/
structure SavedRecipe where
  id : String
  recipe_id : String
  title : String
  image : String
  source : String
  created_at : String
  cuisine : String
  meal_type : String
  tags : List String
  ingredients : List Ingredient
  instructions : List String
  time_minutes : Option Nat
  servings : Option Nat
  difficulty : Option String
  nutrition_summary : Option String
  is_ai_generated : Bool
deriving DecidableEq

/-- App.tsx lines 301-318: the locally synthesized `newSavedRecipe`.
The temporary id (a string built from the current time) and the
creation timestamp are passed in as the values the environment would
supply. -/
def mkNewSavedRecipe (recipe : RecipeInput) (tempId createdAt : String) :
    SavedRecipe :=
  { id := tempId
    recipe_id := recipe.id
    title := recipe.title
    image := recipe.image
    source := (mkSaveData recipe).source
    created_at := createdAt
    cuisine := recipe.cuisine
    meal_type := recipe.meal_type
    tags := recipe.tags
    ingredients := recipe.ingredients
    instructions := recipe.instructions
    time_minutes := recipe.time_minutes
    servings := recipe.servings
    difficulty := recipe.difficulty
    nutrition_summary := recipe.nutrition_summary
    is_ai_generated := if recipe.hasAiField then recipe.aiFlag else false }

/-- The saved-recipe reconciler state: the React state pair
`savedRecipes` (ordered list) and `savedRecipeIds` (a JavaScript `Set`,
modelled extensionally as a `Finset`). App.tsx lines 229-230. -/
structure SavedState where
  savedRecipes : List SavedRecipe
  savedRecipeIds : Finset String
deriving DecidableEq

/-- `savedRecipeIds.has(id)` — the O(1) membership test that drives the
bookmark UI. -/
def isSaved (s : SavedState) (recipeId : String) : Bool :=
  decide (recipeId ∈ s.savedRecipeIds)

/-- App.tsx lines 266-274, `fetchSavedRecipes`: on success the response
items replace the list and the id set is rebuilt from their
`recipe_id` fields; a failure is caught and logged, leaving state
unchanged. -/
def fetchSavedRecipes (response : Except String (List SavedRecipe))
    (s : SavedState) : SavedState :=
  match response with
  | .ok items =>
      { savedRecipes := items
        savedRecipeIds := (items.map SavedRecipe.recipe_id).toFinset }
  | .error _ => s

/-- App.tsx lines 281-324, `handleSaveRecipe`: the remote call
`api.saveRecipe` happens first (its outcome is the `remote` argument);
if it throws, the error is rethrown and no local update runs; on
success the synthesized record is prepended and the id inserted. -/
def handleSaveRecipe (remote : Except String Unit) (recipe : RecipeInput)
    (tempId createdAt : String) (s : SavedState) :
    Except String SavedState :=
  match remote with
  | .error e => .error e
  | .ok _ =>
      .ok { savedRecipes := mkNewSavedRecipe recipe tempId createdAt :: s.savedRecipes
            savedRecipeIds := insert recipe.id s.savedRecipeIds }

/-- App.tsx lines 326-338, `handleUnsaveRecipe`: the remote delete
happens first; if it throws, the error is rethrown and no local update
runs; on success every list entry whose `recipe_id` equals the argument
is filtered out and the id is deleted from the set. -/
def handleUnsaveRecipe (remote : Except String Unit) (recipeId : String)
    (s : SavedState) : Except String SavedState :=
  match remote with
  | .error e => .error e
  | .ok _ =>
      .ok { savedRecipes := s.savedRecipes.filter (fun r => r.recipe_id != recipeId)
            savedRecipeIds := s.savedRecipeIds.erase recipeId }

/-- One reconciler operation together with the outcome of its remote
call. -/
inductive SavedOp where
  | hydrate (response : Except String (List SavedRecipe))
  | save (recipe : RecipeInput) (tempId createdAt : String)
      (remote : Except String Unit)
  | unsave (recipeId : String) (remote : Except String Unit)

/-- The state transition an operation induces on the reconciler state:
a thrown error propagates to the caller and leaves the local state
untouched. -/
def savedStep (s : SavedState) : SavedOp → SavedState
  | .hydrate response => fetchSavedRecipes response s
  | .save recipe tempId createdAt remote =>
      match handleSaveRecipe remote recipe tempId createdAt s with
      | .ok s' => s'
      | .error _ => s
  | .unsave recipeId remote =>
      match handleUnsaveRecipe remote recipeId s with
      | .ok s' => s'
      | .error _ => s

/-- Running a sequence of reconciler operations. -/
def runSaved (s : SavedState) (ops : List SavedOp) : SavedState :=
  ops.foldl savedStep s

/-- An operation removes the given id exactly when it is a successful
unsave of that id or a successful hydrate whose response omits it. -/
def removesId (recipeId : String) : SavedOp → Bool
  | .unsave rid (.ok _) => rid == recipeId
  | .hydrate (.ok items) => !((items.map SavedRecipe.recipe_id).contains recipeId)
  | _ => false

/-! ## Pantry synchronizer (App.tsx lines 218-223 and 359-415) -/

/-- The frontend pantry item shape (App.tsx lines 218-223,
`PantryItem`). `expiryDate` is an optional YYYY-MM-DD string. -/
structure PantryItem where
  name : String
  quantity : String
  expiryDate : Option String
  addedAt : String
deriving DecidableEq

/-- The server pantry item shape, `PantryItemOut`. Its declaration is
imported from api.ts; the fields are fixed by the interface table of
the external API (name, quantity, expiry_date optional, added_at) and
by how `mapPantryOut` reads them. -/
structure PantryItemOut where
  name : String
  quantity : Option String
  expiry_date : Option String
  added_at : String
deriving DecidableEq

/-- The upsert request body, `PantryItemIn`: name, quantity and an
optional ISO expiry date (null when cleared). `quantity` is an `Option`
because the merged record may lack it when no local snapshot exists. -/
structure PantryItemIn where
  name : String
  quantity : Option String
  expiry_date : Option String
deriving DecidableEq

/-- JavaScript truthiness of an optional string: `undefined` and the
empty string are falsy. -/
def jsTruthy : Option String → Bool
  | some s => s != ""
  | none => false

/-- The `toLowerCase()` call of the pantry code: character-wise
lower-casing, written over the character list so that it evaluates by
kernel reduction. -/
def strLower (s : String) : String :=
  ⟨s.data.map Char.toLower⟩

/-- `new Date(d).toISOString()` for a YYYY-MM-DD date-only string `d`:
JavaScript parses such a string as UTC midnight, so the result appends
the midnight time suffix. -/
def jsDateToIso (d : String) : String :=
  d ++ "T00:00:00.000Z"

/-- App.tsx lines 360-365, `mapPantryOut`: `quantity` falls back to the
empty string (`p.quantity || \x27\x27`), and `expiry_date` is truncated
to its first 10 characters when truthy, dropped otherwise. -/
def mapPantryOut (p : PantryItemOut) : PantryItem :=
  { name := p.name
    quantity := match p.quantity with
      | some q => if q != "" then q else ""
      | none => ""
    expiryDate := if jsTruthy p.expiry_date then
        (p.expiry_date.getD "").take 10
      else none
    addedAt := p.added_at }

/-- App.tsx lines 367-374, `fetchPantry`: on success the mapped items
replace the pantry; a failure is caught and logged, leaving state
unchanged. -/
def fetchPantry (response : Except String (List PantryItemOut))
    (pantry : List PantryItem) : List PantryItem :=
  match response with
  | .ok items => items.map mapPantryOut
  | .error _ => pantry

/-- App.tsx lines 376-388, `addToPantry`, local update on success: every
entry whose lower-cased name equals the lower-cased argument is
filtered out and the mapped server item is prepended. On failure the
error is rethrown and the pantry is unchanged. -/
def addToPantryLocal (name : String) (saved : PantryItemOut)
    (pantry : List PantryItem) : List PantryItem :=
  mapPantryOut saved ::
    pantry.filter (fun i => strLower i.name != strLower name)

/-- The add-path request body (App.tsx line 378):
`\x7b name, quantity: \x27\x27 \x7d`. -/
def addToPantryPayload (name : String) : PantryItemIn :=
  { name := name, quantity := some "", expiry_date := none }

/-- The field subset supplied to `updatePantryItem` as
`updates: Partial<PantryItem>`; `none` means the field is not supplied.
The Pantry view only ever updates `quantity` and `expiryDate`. -/
structure PantryUpdates where
  quantity : Option String
  expiryDate : Option String
deriving DecidableEq

/-- App.tsx lines 390-398, the request body built by
`updatePantryItem`: `current` is the snapshot found by exact name in
the local cache, `merged` spreads the updates over it, and the payload
takes the name argument, the merged quantity and the merged expiry date
converted to an ISO timestamp when truthy (null otherwise). -/
def updatePantryPayload (pantry : List PantryItem) (name : String)
    (updates : PantryUpdates) : PantryItemIn :=
  let current := pantry.find? (fun i => i.name == name)
  let mergedQuantity : Option String := match updates.quantity with
    | some q => some q
    | none => current.map PantryItem.quantity
  let mergedExpiry : Option String := match updates.expiryDate with
    | some d => some d
    | none => current.bind PantryItem.expiryDate
  { name := name
    quantity := mergedQuantity
    expiry_date := if jsTruthy mergedExpiry then
        some (jsDateToIso (mergedExpiry.getD ""))
      else none }

/-- App.tsx line 400, `updatePantryItem`, local update on success:
entries whose name equals the argument exactly are replaced by the
mapped server item; all other entries, including ones differing only in
case, are kept as they are, and nothing is prepended. -/
def updatePantryLocal (pantry : List PantryItem) (name : String)
    (saved : PantryItemOut) : List PantryItem :=
  pantry.map (fun i => if i.name == name then mapPantryOut saved else i)

/-- App.tsx lines 407-415, `removePantryItem`, local update on success:
entries are filtered by exact name. On failure the error is rethrown
and the pantry is unchanged. -/
def removePantryLocal (pantry : List PantryItem) (name : String) :
    List PantryItem :=
  pantry.filter (fun i => i.name != name)

/-! ## Remote store client error normalization (api.ts lines 126-157) -/

/-- The outcome of the underlying `fetch` call inside
`ApiClient.request`. A non-ok HTTP response carries the `detail` field
parsed from its JSON body (absent when the body has no such field). A
rejected fetch carries the thrown value: in a browser a network-level
failure rejects with a `TypeError`, which is an instance of `Error`,
carrying a transport message; `nonErrorThrow` covers a thrown value
that is not an `Error` instance. -/
inductive FetchOutcome where
  | response (ok : Bool) (detail : Option String) (body : String)
  | networkFailure (msg : String)
  | nonErrorThrow

/-- api.ts lines 142-156: a non-ok response throws
`new Error(errorData.detail || \x27Request failed\x27)`; the catch
block rethrows any `Error` instance unchanged (which covers both the
error just thrown and a rejected fetch, since a `TypeError` is an
`Error`), and throws `new Error(\x27Network error\x27)` only for a
non-Error thrown value. -/
def request (outcome : FetchOutcome) : Except String String :=
  match outcome with
  | .response true _ body => .ok body
  | .response false detail _ =>
      .error (if jsTruthy detail then detail.getD "" else "Request failed")
  | .networkFailure msg => .error msg
  | .nonErrorThrow => .error "Network error"

/-! ## Application-level state and logout (App.tsx lines 225-263, 350-353) -/

/-- The top-level React state of `App` that the claims concern
(App.tsx lines 226-232). -/
structure AppState where
  isLoggedIn : Bool
  activeTab : String
  saved : SavedState
  searchIngredients : String
  pantry : List PantryItem
deriving DecidableEq

/-- The initial state (App.tsx lines 226-232). -/
def initialAppState : AppState :=
  { isLoggedIn := false
    activeTab := "auth"
    saved := { savedRecipes := [], savedRecipeIds := ∅ }
    searchIngredients := ""
    pantry := [] }

/-- App.tsx lines 350-353, `handleLogout`: sets logged-in to false and
returns to the auth tab. It makes no remote call: its only effect is on
this local state. -/
def handleLogout (s : AppState) : AppState :=
  { s with isLoggedIn := false, activeTab := "auth" }

/-- App.tsx lines 254-263: the effect that runs when the logged-in flag
changes; in the logged-out branch it clears the saved list, the
saved-id set and the pantry, with no remote call. -/
def loggedOutClear (s : AppState) : AppState :=
  if s.isLoggedIn then s
  else
    { s with saved := { savedRecipes := [], savedRecipeIds := ∅ }
             pantry := [] }

/-- The complete local effect of pressing logout: `handleLogout`
followed by the logged-out branch of the effect. -/
def logout (s : AppState) : AppState :=
  loggedOutClear (handleLogout s)

/-- One application-level operation, with the outcome of its remote
call where it makes one. Logout takes no remote outcome: it is
local-only. -/
inductive AppOp where
  | savedOp (op : SavedOp)
  | hydratePantry (response : Except String (List PantryItemOut))
  | addPantry (name : String) (remote : Except String PantryItemOut)
  | updatePantry (name : String) (updates : PantryUpdates)
      (remote : Except String PantryItemOut)
  | removePantry (name : String) (remote : Except String Unit)
  | doLogout

/-- The state transition of one application-level operation; a failed
remote call leaves the local state untouched (the error propagates to
the caller). -/
def appStep (s : AppState) : AppOp → AppState
  | .savedOp op => { s with saved := savedStep s.saved op }
  | .hydratePantry response => { s with pantry := fetchPantry response s.pantry }
  | .addPantry name remote =>
      match remote with
      | .ok saved => { s with pantry := addToPantryLocal name saved s.pantry }
      | .error _ => s
  | .updatePantry name _ remote =>
      match remote with
      | .ok saved => { s with pantry := updatePantryLocal s.pantry name saved }
      | .error _ => s
  | .removePantry name remote =>
      match remote with
      | .ok _ => { s with pantry := removePantryLocal s.pantry name }
      | .error _ => s
  | .doLogout => logout s

/-- Running a sequence of application-level operations from a state. -/
def runApp (s : AppState) (ops : List AppOp) : AppState :=
  ops.foldl appStep s

/-! ## Sample values used by concrete witnesses and counterexamples -/

/-- A concrete catalog recipe. -/
def sampleCatalog : Recipe :=
  { id := "r1", title := "Soup", image := "img", cuisine := "French"
    meal_type := "dinner", tags := [], ingredients := []
    instructions := ["boil"], match_count := 1, total_searched := 2 }

/-- A concrete AI recipe whose `is_ai_generated` field is present but
false. -/
def sampleAiNotFlagged : AIRecipe :=
  { id := "ai1", title := "AI Soup", image := "img2", cuisine := "Fusion"
    meal_type := "lunch", tags := [], ingredients := []
    instructions := [], time_minutes := some 10, servings := some 2
    difficulty := some "easy", nutrition_summary := none
    source := "AI", is_ai_generated := false }

/-- A concrete saved recipe with recipe id r9. -/
def sampleSaved : SavedRecipe :=
  { id := "s9", recipe_id := "r9", title := "Stew", image := "img3"
    source := "TheMealDB", created_at := "2024-01-01", cuisine := "Irish"
    meal_type := "dinner", tags := [], ingredients := [], instructions := []
    time_minutes := none, servings := none, difficulty := none
    nutrition_summary := none, is_ai_generated := false }

/-- A concrete pantry entry stored under the lower-cased name. -/
def tomatoLower : PantryItem :=
  { name := "tomato", quantity := "1", expiryDate := none, addedAt := "t0" }

/-- A concrete pantry entry stored under the capitalized name. -/
def tomatoUpper : PantryItem :=
  { name := "Tomato", quantity := "3", expiryDate := none, addedAt := "t2" }

/-- A concrete server response for an upsert of the capitalized name. -/
def tomatoUpperOut : PantryItemOut :=
  { name := "Tomato", quantity := some "2", expiry_date := none
    added_at := "t1" }

/-! ## Theorems for the claims -/

/-- C2: if the remote delete fails, the error is rethrown and the saved
list and saved-id set are exactly as before (no local removal before
server confirmation); if it succeeds, exactly the entries whose
recipe id equals the argument are removed from the list (plural
removal) and the id is removed from the set. -/
theorem unsave_failure_unchanged_success_removes_all (recipeId e : String)
    (s : SavedState) :
    handleUnsaveRecipe (.error e) recipeId s = .error e ∧
    savedStep s (.unsave recipeId (.error e)) = s ∧
    (∀ r : SavedRecipe,
      r ∈ (savedStep s (.unsave recipeId (.ok ()))).savedRecipes
        ↔ (r ∈ s.savedRecipes ∧ r.recipe_id ≠ recipeId)) ∧
    (∀ idStr : String,
      idStr ∈ (savedStep s (.unsave recipeId (.ok ()))).savedRecipeIds
        ↔ (idStr ≠ recipeId ∧ idStr ∈ s.savedRecipeIds)) := by
  refine ⟨rfl, rfl, ?_, ?_⟩
  · intro r
    simp [savedStep, handleUnsaveRecipe, List.mem_filter]
  · intro idStr
    simp [savedStep, handleUnsaveRecipe, Finset.mem_erase]

/-- C4: if the remote save fails, `handleSaveRecipe` raises exactly the
remote error, and the saved list and saved-id set are unchanged: the
optimistic update runs only after the remote call has succeeded, so
failure leaves local state consistent with the server. -/
theorem save_failure_raises_and_unchanged (recipe : RecipeInput)
    (tempId createdAt e : String) (s : SavedState) :
    handleSaveRecipe (.error e) recipe tempId createdAt s = .error e ∧
    savedStep s (.save recipe tempId createdAt (.error e)) = s :=
  ⟨rfl, rfl⟩

/-- C7: a successful hydrate replaces the local saved state entirely
with the fetched server set (list and id set are functions of the
response only), so hydrating twice with the same response equals
hydrating once. -/
theorem hydrate_replaces_and_idempotent (items : List SavedRecipe)
    (s : SavedState) :
    (savedStep s (.hydrate (.ok items))).savedRecipes = items ∧
    (savedStep s (.hydrate (.ok items))).savedRecipeIds
      = (items.map SavedRecipe.recipe_id).toFinset ∧
    savedStep (savedStep s (.hydrate (.ok items))) (.hydrate (.ok items))
      = savedStep s (.hydrate (.ok items)) :=
  ⟨rfl, rfl, rfl⟩

/-- C8: after logout the saved list, the saved-id set and the pantry
are all empty, whatever they held before; logout is a pure local
transition (its definition takes no remote outcome) and it is
idempotent. -/
theorem logout_clears_and_idempotent (s : AppState) :
    (logout s).saved.savedRecipes = [] ∧
    (logout s).saved.savedRecipeIds = ∅ ∧
    (logout s).pantry = [] ∧
    logout (logout s) = logout s :=
  ⟨rfl, rfl, rfl, rfl⟩

/-- A single reconciler step keeps an id saved unless the step is a
successful unsave of that id or a successful hydrate omitting it. -/
theorem isSaved_savedStep_of_not_removes (recipeId : String)
    (s : SavedState) (op : SavedOp) (h : isSaved s recipeId = true)
    (hop : removesId recipeId op = false) :
    isSaved (savedStep s op) recipeId = true := by
  simp only [isSaved, decide_eq_true_eq] at h ⊢
  cases op with
  | hydrate response =>
    cases response with
    | ok items =>
      simp [removesId] at hop
      obtain ⟨a, ha, hrid⟩ := hop
      simp [savedStep, fetchSavedRecipes, List.mem_toFinset, List.mem_map]
      exact ⟨a, ha, hrid⟩
    | error e => simpa [savedStep, fetchSavedRecipes] using h
  | save recipe tempId createdAt remote =>
    cases remote with
    | ok u =>
      simp [savedStep, handleSaveRecipe, Finset.mem_insert]
      exact Or.inr h
    | error e => simpa [savedStep, handleSaveRecipe] using h
  | unsave rid remote =>
    cases remote with
    | ok u =>
      simp only [removesId, beq_eq_false_iff_ne, ne_eq] at hop
      simp [savedStep, handleUnsaveRecipe, Finset.mem_erase]
      exact ⟨fun he => hop he.symm, h⟩
    | error e => simpa [savedStep, handleUnsaveRecipe] using h

/-- An id stays saved across any sequence of reconciler operations none
of which removes it. -/
theorem isSaved_runSaved_of_not_removes (recipeId : String) :
    ∀ (ops : List SavedOp) (s : SavedState),
      isSaved s recipeId = true →
      (∀ op ∈ ops, removesId recipeId op = false) →
      isSaved (runSaved s ops) recipeId = true := by
  intro ops
  induction ops with
  | nil => intro s h _; exact h
  | cons op rest ih =>
    intro s h hops
    have h1 : isSaved (savedStep s op) recipeId = true :=
      isSaved_savedStep_of_not_removes recipeId s op h
        (hops op (List.mem_cons_self op rest))
    exact ih (savedStep s op) h1
      (fun o ho => hops o (List.mem_cons_of_mem op ho))

/-- C1: a successful save makes `isSaved recipe.id` true immediately,
prepends a synthesized record whose `recipe_id` is `recipe.id` to the
front of the saved list, and `isSaved recipe.id` remains true across
every subsequent reconciler operation that is neither a successful
unsave of that id nor a successful hydrate whose response omits it. -/
theorem save_isSaved_until_removed (recipe : RecipeInput)
    (tempId createdAt : String) (s : SavedState) (ops : List SavedOp)
    (hops : ∀ op ∈ ops, removesId recipe.id op = false) :
    isSaved (savedStep s (.save recipe tempId createdAt (.ok ()))) recipe.id
      = true ∧
    (savedStep s (.save recipe tempId createdAt (.ok ()))).savedRecipes
      = mkNewSavedRecipe recipe tempId createdAt :: s.savedRecipes ∧
    (mkNewSavedRecipe recipe tempId createdAt).recipe_id = recipe.id ∧
    isSaved
      (runSaved (savedStep s (.save recipe tempId createdAt (.ok ()))) ops)
      recipe.id = true := by
  have hnow :
      isSaved (savedStep s (.save recipe tempId createdAt (.ok ()))) recipe.id
        = true := by
    simp [isSaved, savedStep, handleSaveRecipe, Finset.mem_insert]
  refine ⟨hnow, rfl, rfl, ?_⟩
  exact isSaved_runSaved_of_not_removes recipe.id ops _ hnow hops

/-- Witness for C1 at concrete inputs: saving the sample catalog recipe
into the empty state, then unsaving an unrelated id, leaves r1 saved. -/
theorem save_isSaved_until_removed_witness :
    (∀ op ∈ [SavedOp.unsave "other" (.ok ()),
             SavedOp.hydrate (.ok [sampleSaved, mkNewSavedRecipe
               (.catalog sampleCatalog) "temp_1" "2024-01-02"])],
      removesId (RecipeInput.catalog sampleCatalog).id op = false) ∧
    isSaved
      (runSaved
        (savedStep { savedRecipes := [], savedRecipeIds := ∅ }
          (.save (.catalog sampleCatalog) "temp_1" "2024-01-02" (.ok ())))
        [SavedOp.unsave "other" (.ok ()),
         SavedOp.hydrate (.ok [sampleSaved, mkNewSavedRecipe
           (.catalog sampleCatalog) "temp_1" "2024-01-02"])])
      (RecipeInput.catalog sampleCatalog).id = true :=
  ⟨by decide,
   (save_isSaved_until_removed (.catalog sampleCatalog) "temp_1" "2024-01-02"
     { savedRecipes := [], savedRecipeIds := ∅ }
     [SavedOp.unsave "other" (.ok ()),
      SavedOp.hydrate (.ok [sampleSaved, mkNewSavedRecipe
        (.catalog sampleCatalog) "temp_1" "2024-01-02"])]
     (by decide)).2.2.2⟩

/-- The saved-id set holds exactly the recipe ids occurring in the
saved list. -/
def idsMatchList (s : SavedState) : Prop :=
  ∀ idStr : String,
    idStr ∈ s.savedRecipeIds ↔ idStr ∈ s.savedRecipes.map SavedRecipe.recipe_id

/-- Every application-level step preserves the id-set/list agreement of
the saved state. -/
theorem idsMatchList_appStep (s : AppState) (op : AppOp)
    (h : idsMatchList s.saved) : idsMatchList (appStep s op).saved := by
  cases op with
  | savedOp sop =>
    cases sop with
    | hydrate response =>
      cases response with
      | ok items =>
        intro idStr
        simp [appStep, savedStep, fetchSavedRecipes]
      | error e => exact h
    | save recipe tempId createdAt remote =>
      cases remote with
      | ok u =>
        intro idStr
        simp only [appStep, savedStep, handleSaveRecipe, List.map_cons,
          Finset.mem_insert, List.mem_cons, mkNewSavedRecipe]
        exact or_congr Iff.rfl (h idStr)
      | error e => exact h
    | unsave rid remote =>
      cases remote with
      | ok u =>
        intro idStr
        simp only [appStep, savedStep, handleUnsaveRecipe, Finset.mem_erase,
          List.mem_map, List.mem_filter, bne_iff_ne, ne_eq]
        constructor
        · rintro ⟨hne, hmem⟩
          obtain ⟨r, hr, hrid⟩ := (List.mem_map).mp ((h idStr).mp hmem)
          exact ⟨r, ⟨hr, by simpa [hrid] using hne⟩, hrid⟩
        · rintro ⟨r, ⟨hr, hne⟩, hrid⟩
          refine ⟨by simpa [hrid] using hne, (h idStr).mpr ?_⟩
          exact (List.mem_map).mpr ⟨r, hr, hrid⟩
      | error e => exact h
  | hydratePantry response => exact h
  | addPantry name remote => cases remote with
    | ok saved => exact h
    | error e => exact h
  | updatePantry name updates remote => cases remote with
    | ok saved => exact h
    | error e => exact h
  | removePantry name remote => cases remote with
    | ok u => exact h
    | error e => exact h
  | doLogout =>
    intro idStr
    simp [appStep, logout, loggedOutClear, handleLogout]

/-- The agreement holds along any run from the initial state. -/
theorem idsMatchList_runApp (ops : List AppOp) :
    ∀ s : AppState, idsMatchList s.saved →
      idsMatchList (runApp s ops).saved := by
  induction ops with
  | nil => intro s h; exact h
  | cons op rest ih =>
    intro s h
    exact ih (appStep s op) (idsMatchList_appStep s op h)

/-- C10: after any sequence of application operations from the initial
state — hydrates, saves, unsaves, pantry operations and logouts, each
successful or failed — `isSaved idStr` is true exactly when some entry
of the saved list has that recipe id. -/
theorem saved_ids_agree_with_list (ops : List AppOp) (idStr : String) :
    isSaved (runApp initialAppState ops).saved idStr = true
      ↔ ∃ r ∈ (runApp initialAppState ops).saved.savedRecipes,
          r.recipe_id = idStr := by
  have hinit : idsMatchList initialAppState.saved := by
    intro x
    simp [initialAppState]
  have h := idsMatchList_runApp ops initialAppState hinit idStr
  simp only [isSaved, decide_eq_true_eq]
  rw [h, List.mem_map]

/-- C3 counterexample: an AI record whose `is_ai_generated` field is
present with value `false` still yields `source = "AI"`, because the
code tests field presence, not truthiness. -/
theorem saveData_source_truthiness_counterexample :
    (RecipeInput.ai sampleAiNotFlagged).aiFlag = false ∧
    (mkSaveData (RecipeInput.ai sampleAiNotFlagged)).source = "AI" ∧
    (mkSaveData (RecipeInput.ai sampleAiNotFlagged)).source ≠ "TheMealDB" := by
  decide

/-- C3 amended: the SaveRequest carries `source = "AI"` exactly when the
`is_ai_generated` field is present on the record (whatever its value),
`source = "TheMealDB"` exactly when it is absent; the request field
`is_ai_generated` is true exactly when the record field is present and
true, so it defaults to false when the field is absent. -/
theorem saveData_source_from_presence (recipe : RecipeInput) :
    ((mkSaveData recipe).source = "AI" ↔ recipe.hasAiField = true) ∧
    ((mkSaveData recipe).source = "TheMealDB" ↔ recipe.hasAiField = false) ∧
    ((mkSaveData recipe).is_ai_generated = true
      ↔ (recipe.hasAiField = true ∧ recipe.aiFlag = true)) := by
  cases recipe with
  | catalog r =>
    refine ⟨?_, ?_, ?_⟩ <;>
      simp [mkSaveData, RecipeInput.hasAiField, RecipeInput.aiFlag]
  | ai r =>
    refine ⟨?_, ?_, ?_⟩ <;>
      simp [mkSaveData, RecipeInput.hasAiField, RecipeInput.aiFlag]

/-- C5 counterexample: the update path of the pantry upsert is
case-sensitive. Updating "Tomato" while only "tomato" is stored leaves
the collection unchanged — the stale entry is not replaced and the
server-confirmed item is not prepended; and when both casings are
stored, the update leaves two entries matching the name
case-insensitively. -/
theorem pantry_update_case_sensitive_counterexample :
    updatePantryLocal [tomatoLower] "Tomato" tomatoUpperOut = [tomatoLower] ∧
    mapPantryOut tomatoUpperOut ∉
      updatePantryLocal [tomatoLower] "Tomato" tomatoUpperOut ∧
    ((updatePantryLocal [tomatoUpper, tomatoLower] "Tomato" tomatoUpperOut).filter
      (fun i => strLower i.name == "tomato")).length = 2 := by
  decide

/-- C5 amended: only the add path guarantees case-insensitive
uniqueness: after a successful add, the server-confirmed item is
prepended and it is the unique entry matching the upserted name
case-insensitively. The update path instead replaces in place exactly
the entries whose stored name equals the supplied name, keeping every
differently-named entry (including ones differing only in case)
unchanged and prepending nothing. -/
theorem pantry_upsert_case_insensitivity (name : String)
    (saved : PantryItemOut) (pantry : List PantryItem)
    (h : strLower saved.name = strLower name) :
    (addToPantryLocal name saved pantry).head? = some (mapPantryOut saved) ∧
    (addToPantryLocal name saved pantry).filter
        (fun i => strLower i.name == strLower name) = [mapPantryOut saved] ∧
    (∀ saved2 : PantryItemOut, ∀ i ∈ pantry, i.name ≠ name →
        i ∈ updatePantryLocal pantry name saved2) ∧
    (updatePantryLocal pantry name saved).length = pantry.length := by
  refine ⟨rfl, ?_, ?_, ?_⟩
  · simp only [addToPantryLocal, List.filter_cons, mapPantryOut, h,
      beq_self_eq_true, if_pos]
    simp [List.filter_filter]
  · intro saved2 i hi hne
    refine List.mem_map.mpr ⟨i, hi, ?_⟩
    simp [hne]
  · simp [updatePantryLocal]

/-- Witness for C5 amended at concrete inputs: adding "Tomato" over a
stored "tomato" prepends the server item and leaves it as the only
case-insensitive match. -/
theorem pantry_upsert_case_insensitivity_witness :
    strLower tomatoUpperOut.name = strLower "Tomato" ∧
    (addToPantryLocal "Tomato" tomatoUpperOut [tomatoLower]).filter
        (fun i => strLower i.name == strLower "Tomato")
      = [mapPantryOut tomatoUpperOut] :=
  ⟨by decide,
   (pantry_upsert_case_insensitivity "Tomato" tomatoUpperOut [tomatoLower]
     (by decide)).2.1⟩

/-- C6: the upsert payload is a read-modify-write against the local
cache: its name is the supplied name; when a snapshot with that exact
name is cached, the payload is that snapshot overlaid with the supplied
updates; when none is cached, the payload fields come from the updates
alone (so unsupplied fields are cleared). -/
theorem update_payload_read_modify_write (pantry : List PantryItem)
    (name : String) (updates : PantryUpdates) :
    (updatePantryPayload pantry name updates).name = name ∧
    (∀ item, pantry.find? (fun i => i.name == name) = some item →
      updatePantryPayload pantry name updates =
        { name := name
          quantity := some (updates.quantity.getD item.quantity)
          expiry_date :=
            if jsTruthy (updates.expiryDate.or item.expiryDate) then
              some (jsDateToIso ((updates.expiryDate.or item.expiryDate).getD ""))
            else none }) ∧
    (pantry.find? (fun i => i.name == name) = none →
      updatePantryPayload pantry name updates =
        { name := name
          quantity := updates.quantity
          expiry_date := if jsTruthy updates.expiryDate then
              some (jsDateToIso (updates.expiryDate.getD ""))
            else none }) := by
  refine ⟨rfl, ?_, ?_⟩
  · intro item hfind
    simp only [updatePantryPayload, hfind]
    cases updates.quantity <;> cases hud : updates.expiryDate <;>
      simp [Option.or, hud]
  · intro hfind
    simp only [updatePantryPayload, hfind]
    cases updates.quantity <;> cases hud : updates.expiryDate <;>
      simp [hud]

/-- Witness for C6 at concrete inputs: updating the stored "tomato"
without supplying a quantity sends the cached quantity. -/
theorem update_payload_read_modify_write_witness :
    ([tomatoLower].find? (fun i => i.name == "tomato") = some tomatoLower) ∧
    updatePantryPayload [tomatoLower] "tomato"
        { quantity := none, expiryDate := none } =
      { name := "tomato"
        quantity := some ((none : Option String).getD tomatoLower.quantity)
        expiry_date :=
          if jsTruthy ((none : Option String).or tomatoLower.expiryDate) then
            some (jsDateToIso
              (((none : Option String).or tomatoLower.expiryDate).getD ""))
          else none } :=
  ⟨by decide,
   (update_payload_read_modify_write [tomatoLower] "tomato"
     { quantity := none, expiryDate := none }).2.1 tomatoLower (by decide)⟩

/-- C9 counterexample: a network-level failure makes `fetch` reject
with a `TypeError`, which is an instance of `Error`, so the catch block
rethrows it with its own transport message instead of the generic
"Network error" message. -/
theorem request_network_failure_counterexample :
    request (.networkFailure "Failed to fetch") = .error "Failed to fetch" ∧
    request (.networkFailure "Failed to fetch") ≠ .error "Network error" := by
  refine ⟨rfl, ?_⟩
  intro hEq
  have : ("Failed to fetch" : String) = "Network error" := by
    injection hEq
  exact absurd this (by decide)

/-- C9 amended: a non-success response fails with the parsed `detail`
message when it is present and non-empty, and with the generic
"Request failed" message otherwise; a network-level failure rethrows
the transport error unchanged, carrying its own message; the generic
"Network error" message is used only when the thrown value is not an
`Error` instance. -/
theorem request_error_normalization (detail body msg : String) :
    (detail ≠ "" →
      request (.response false (some detail) body) = .error detail) ∧
    request (.response false (some "") body) = .error "Request failed" ∧
    request (.response false none body) = .error "Request failed" ∧
    (∀ b, request (.response true (some detail) b) = .ok b) ∧
    request (.networkFailure msg) = .error msg ∧
    request .nonErrorThrow = .error "Network error" := by
  refine ⟨?_, rfl, rfl, fun b => rfl, rfl, rfl⟩
  intro hne
  simp [request, jsTruthy, hne]

/-- Witness for C9 amended at concrete inputs: a 404 body with detail
"Not found" surfaces exactly that message. -/
theorem request_error_normalization_witness :
    ("Not found" : String) ≠ "" ∧
    request (.response false (some "Not found") "body") = .error "Not found" :=
  ⟨by decide,
   (request_error_normalization "Not found" "body" "m").1 (by decide)⟩

end Cookify
